import Mathlib

/-!
# Verification of the document-validation core

Shallow embedding of the property-extraction and validation-rule engine of
the repository (Python, FastAPI).  Numeric document fields (`float` in the
source) are modelled as exact rationals `ℚ`; Python dictionaries with
optional keys are modelled as structures of `Option` fields; Python
exceptions are modelled with `Except PyErr`.

Sources embedded below:
* `models.py`            — pydantic data model (`DocumentSpec`, `FontInfo`, …)
* `services/validation/rules.py` — the atomic rule functions
* `services/validation/core.py`  — the rule-engine orchestrator
* `services/extract/pdf.py`      — the PDF extractor
* `services/extract/odt.py`      — the ODT extractor
-/

set_option maxHeartbeats 1000000

/-- Python runtime exceptions that the embedded code can raise. -/
inductive PyErr where
  /-- `AttributeError`: attribute lookup on an object that lacks it
      (pydantic models raise this for undeclared fields). -/
  | attributeError : PyErr
  /-- `KeyError`: `d[k]` on a dict without key `k`. -/
  | keyError : PyErr
  /-- `fastapi.HTTPException(status_code)` raised explicitly by the code. -/
  | httpException (code : Nat) : PyErr
deriving DecidableEq, Repr

/-- Page size sub-dict `{"width_cm": _, "height_cm": _}`. -/
structure PageSize where
  width_cm : ℚ
  height_cm : ℚ
deriving DecidableEq, Repr

/-- Margins sub-dict `{"top_cm": _, "bottom_cm": _, "left_cm": _, "right_cm": _}`. -/
structure MarginsRec where
  top_cm : ℚ
  bottom_cm : ℚ
  left_cm : ℚ
  right_cm : ℚ
deriving DecidableEq, Repr

/-- `models.FontInfo`.  NOTE: the pydantic model declares exactly the two
fields below; the extractors pass and then dereference an undeclared
`size_counts` attribute, which pydantic ignores at construction and which
raises `AttributeError` on access (see `extract_pdf_detailed_analysis`). -/
structure FontInfo where
  sizes : List ℚ
  count : Nat
deriving DecidableEq, Repr

/-- `models.ImageInfo`. -/
structure ImageInfo where
  count : Nat
  avg_size_kb : ℚ
deriving DecidableEq, Repr

/-- One entry of `toc_structure`: `{"level": str, "text": str}`. -/
structure TocEntry where
  level : String
  text : String
deriving DecidableEq, Repr

/-- `models.DetailedDocumentAnalysis` (dicts modelled as association lists). -/
structure DetailedDocumentAnalysis where
  fonts : List (String × FontInfo) := []
  images : Option ImageInfo := none
  line_spacing : List (String × ℚ) := []
  paragraph_count : Nat := 0
  toc_structure : List TocEntry := []
  metadata : List (String × String) := []
  has_color_pages : Bool := false
  has_color_text : Bool := false
  colored_elements_count : Nat := 0
deriving DecidableEq, Repr

/-- `models.DocumentSpec` (pydantic).  The `id`, `created_at`, `created_by`
bookkeeping fields are irrelevant to validation and omitted.  The model
declares NO `min_page_count` field — this is exactly what `models.py`
declares, although `rules.py`, `services/document.py`, `server.py` and
`api.py` all read (or pass) `spec.min_page_count`. -/
structure DocumentSpec where
  name : String
  page_width_cm : ℚ
  page_height_cm : ℚ
  top_margin_cm : ℚ
  bottom_margin_cm : ℚ
  left_margin_cm : ℚ
  right_margin_cm : ℚ
  requires_toc : Bool := false
  no_color_pages : Bool := false
  no_images : Bool := false
  requires_header : Bool := false
  requires_footnotes : Bool := false
deriving DecidableEq, Repr

/-- Attribute lookup `spec.min_page_count`.  `models.DocumentSpec` declares
no such field, so pydantic's `__getattr__` raises `AttributeError` on every
instance (extra constructor kwargs such as `min_page_count=40` in `api.py`
are silently dropped by pydantic's default `extra='ignore'`). -/
def DocumentSpec.getattr_min_page_count (_ : DocumentSpec) : Except PyErr Int :=
  .error .attributeError

/-- One entry of `page_boxes` / `inconsistent_pages` in the PDF extractor:
`{"page": idx+1, "width_cm": _, "height_cm": _}`. -/
structure PageBoxRec where
  page : Nat
  width_cm : ℚ
  height_cm : ℚ
deriving DecidableEq, Repr

/-- The `doc_props` dict produced by the extractors and consumed by the
validation rules.  A key that may be absent from the dict is an `Option`
(`none` = key missing). -/
structure DocProps where
  page_size : Option PageSize := none
  margins : Option MarginsRec := none
  has_toc : Option Bool := none
  headings : Option (List String) := none
  headers : Option (List String) := none
  footnotes : Option (List String) := none
  detailed_analysis : Option DetailedDocumentAnalysis := none
  page_count : Option Int := none
  page_num_positions : Option (List String) := none
  inconsistent_pages : Option (List PageBoxRec) := none
  has_size_inconsistencies : Option Bool := none
deriving DecidableEq, Repr

/-- The purchased-services map `{service_name: bool}`; only
`"layout_service"` is ever read (`services.get("layout_service")`,
defaulting to falsy when absent). -/
structure Services where
  layout_service : Bool := false
deriving DecidableEq, Repr

namespace rules

/-- Tolerance `_TOL_PAGE_CM = 0.6` of `rules.py`. -/
def TOL_PAGE_CM : ℚ := 6/10

/-- Tolerance `_TOL_MARGIN_CM = 0.5` of `rules.py`. -/
def TOL_MARGIN_CM : ℚ := 5/10

/-- `rules.page_size`: suppressed by `layout_service`; otherwise both page
dimensions must be strictly within 0.6 cm of the spec.  `doc["page_size"]`
raises `KeyError` when the key is absent. -/
def page_size (doc : DocProps) (spec : DocumentSpec) (services : Services) :
    Except PyErr Bool :=
  if services.layout_service then .ok true
  else
    match doc.page_size with
    | none => .error .keyError
    | some sz =>
        .ok (decide (|sz.width_cm - spec.page_width_cm| < TOL_PAGE_CM ∧
                     |sz.height_cm - spec.page_height_cm| < TOL_PAGE_CM))

/-- `rules.format_consistency`: `not doc.get("has_size_inconsistencies", False)`. -/
def format_consistency (doc : DocProps) (_spec : DocumentSpec)
    (_services : Services) : Except PyErr Bool :=
  .ok (!(doc.has_size_inconsistencies.getD false))

/-- `rules.margins`: suppressed by `layout_service`; otherwise all four sides
strictly within 0.5 cm of the spec. -/
def margins (doc : DocProps) (spec : DocumentSpec) (services : Services) :
    Except PyErr Bool :=
  if services.layout_service then .ok true
  else
    match doc.margins with
    | none => .error .keyError
    | some m =>
        .ok (decide (|m.top_cm - spec.top_margin_cm| < TOL_MARGIN_CM ∧
                     |m.bottom_cm - spec.bottom_margin_cm| < TOL_MARGIN_CM ∧
                     |m.left_cm - spec.left_margin_cm| < TOL_MARGIN_CM ∧
                     |m.right_cm - spec.right_margin_cm| < TOL_MARGIN_CM))

/-- `rules.has_toc`: `not spec.requires_toc or doc["has_toc"]` (the dict
access only happens when `requires_toc` holds, by short-circuiting). -/
def has_toc (doc : DocProps) (spec : DocumentSpec) (_services : Services) :
    Except PyErr Bool :=
  if !spec.requires_toc then .ok true
  else
    match doc.has_toc with
    | none => .error .keyError
    | some b => .ok b

/-- `rules.no_color_pages`: `da = doc.get("detailed_analysis")`; pass unless
the spec forbids color and the analysis reports colored pages or text. -/
def no_color_pages (doc : DocProps) (spec : DocumentSpec)
    (_services : Services) : Except PyErr Bool :=
  if !spec.no_color_pages then .ok true
  else
    .ok (match doc.detailed_analysis with
         | none => true
         | some da => !(da.has_color_pages || da.has_color_text))

/-- `rules.no_images`: pass unless the spec forbids images and the analysis
has an `images` record with a nonzero (truthy) count. -/
def no_images (doc : DocProps) (spec : DocumentSpec) (_services : Services) :
    Except PyErr Bool :=
  if !spec.no_images then .ok true
  else
    .ok (match doc.detailed_analysis with
         | none => true
         | some da =>
             match da.images with
             | none => true
             | some info => decide (info.count = 0))

/-- `rules.has_header`: `not spec.requires_header or bool(doc.get("headers"))`
(`None` and the empty list are both falsy). -/
def has_header (doc : DocProps) (spec : DocumentSpec) (_services : Services) :
    Except PyErr Bool :=
  .ok (!spec.requires_header || !(doc.headers.getD []).isEmpty)

/-- `rules.has_footnotes`: `not spec.requires_footnotes or bool(doc.get("footnotes"))`. -/
def has_footnotes (doc : DocProps) (spec : DocumentSpec)
    (_services : Services) : Except PyErr Bool :=
  .ok (!spec.requires_footnotes || !(doc.footnotes.getD []).isEmpty)

/-- `rules.min_page_count`: `doc.get("page_count", 0) >= spec.min_page_count`.
Python evaluates the left operand (which never raises), then the attribute
lookup `spec.min_page_count`, which raises `AttributeError` because
`models.DocumentSpec` declares no such field. -/
def min_page_count (doc : DocProps) (spec : DocumentSpec)
    (_services : Services) : Except PyErr Bool := do
  let lhs : Int := doc.page_count.getD 0
  let rhs ← spec.getattr_min_page_count
  pure (decide (lhs ≥ rhs))

/-- `rules.page_numbers_position`: `pos = doc.get("page_num_positions", [])`;
empty is KO (fail-closed), otherwise every entry must be one of
`"center"`, `"left"`, `"right"`. -/
def page_numbers_position (doc : DocProps) (_spec : DocumentSpec)
    (_services : Services) : Except PyErr Bool :=
  let pos := doc.page_num_positions.getD []
  if pos.isEmpty then .ok false
  else .ok (pos.all (fun p => p == "center" || p == "left" || p == "right"))

end rules

namespace core

/-- The type of a rule function, as in `core.py`. -/
def RuleFunc : Type :=
  DocProps → DocumentSpec → Services → Except PyErr Bool

/-- The ordered rule table `_RULES` of `core.py`. -/
def RULES : List (String × RuleFunc) :=
  [("page_size",             rules.page_size),
   ("format_consistency",    rules.format_consistency),
   ("margins",               rules.margins),
   ("has_toc",               rules.has_toc),
   ("no_color_pages",        rules.no_color_pages),
   ("no_images",             rules.no_images),
   ("has_header",            rules.has_header),
   ("has_footnotes",         rules.has_footnotes),
   ("min_page_count",        rules.min_page_count),
   ("page_numbers_position", rules.page_numbers_position)]

/-- The `try/except` around one rule call in `core.validate_document`:
any exception becomes `False` for that rule only. -/
def runRule (r : Except PyErr Bool) : Bool :=
  match r with
  | .ok b => b
  | .error _ => false

/-- The `{"validations": ..., "is_valid": ...}` result dict. -/
structure ValidationOutcome where
  validations : List (String × Bool)
  is_valid : Bool
deriving DecidableEq, Repr

/-- `core.validate_document`: rejects `doc_props` without a `"page_size"`
key with `HTTPException(400)`, then evaluates every rule of the table,
catching per-rule exceptions. -/
def validate_document (doc : DocProps) (spec : DocumentSpec)
    (services : Services) : Except PyErr ValidationOutcome :=
  if doc.page_size.isNone then .error (.httpException 400)
  else
    let validations := RULES.map (fun p => (p.1, runRule (p.2 doc spec services)))
    .ok { validations := validations
          is_valid := validations.all (fun p => p.2) }

end core

/-- Shared concrete `doc_props` sample: the minimal dict accepted by the
engine (only `page_size` present), mirroring a freshly uploaded document. -/
def sampleDoc : DocProps :=
  { page_size := some { width_cm := 21, height_cm := 297/10 } }

/-- Shared concrete spec sample, mirroring the fixture of
`tests/test_validate_document.py` (`name="Spec test"`, 17×24, zero margins). -/
def sampleSpec : DocumentSpec :=
  { name := "Spec test"
    page_width_cm := 17
    page_height_cm := 24
    top_margin_cm := 0
    bottom_margin_cm := 0
    left_margin_cm := 0
    right_margin_cm := 0 }

/-- C1.  The claim reads `min_page_count` as `page_count >= spec.min_page_count`
(vacuously true when the spec value is 0).  The code cannot implement this:
`models.DocumentSpec` declares no `min_page_count` field, so the rule raises
`AttributeError` on every input and the engine records `false` for the rule
in every report it produces. -/
theorem min_page_count_rule_always_false
    (doc : DocProps) (spec : DocumentSpec) (sv : Services)
    (r : core.ValidationOutcome)
    (h : core.validate_document doc spec sv = .ok r) :
    rules.min_page_count doc spec sv = .error .attributeError ∧
    List.lookup "min_page_count" r.validations = some false := by
  constructor
  · rfl
  · rw [core.validate_document] at h
    by_cases hps : doc.page_size.isNone = true
    · rw [if_pos hps] at h
      exact absurd h (by simp)
    · rw [if_neg hps] at h
      injection h with h
      subst h
      rfl

/-- Witness for C1 at the repo's own test fixture. -/
theorem min_page_count_rule_always_false_witness :
    ∃ r, core.validate_document sampleDoc sampleSpec { layout_service := false } = .ok r ∧
      (rules.min_page_count sampleDoc sampleSpec { layout_service := false } =
          .error .attributeError ∧
       List.lookup "min_page_count" r.validations = some false) :=
  ⟨_, rfl, min_page_count_rule_always_false sampleDoc sampleSpec _ _ rfl⟩

/-- C2.  In `core.validate_document`, once the input guard passes, every rule
of the table gets an entry in the report, in table order; a rule that raises
is recorded as `false` for that rule only, and a rule that returns normally
is recorded with its own outcome — one failing rule never aborts the report. -/
theorem validate_document_isolates_rule_exceptions
    (doc : DocProps) (spec : DocumentSpec) (sv : Services)
    (h : doc.page_size.isSome) :
    ∃ r, core.validate_document doc spec sv = .ok r ∧
      r.validations.map Prod.fst = core.RULES.map Prod.fst ∧
      ∀ p ∈ core.RULES,
        List.lookup p.1 r.validations = some (core.runRule (p.2 doc spec sv)) := by
  have hnone : ¬ doc.page_size.isNone = true := by
    cases hps : doc.page_size
    · rw [hps] at h; simp at h
    · simp
  refine ⟨⟨core.RULES.map (fun p => (p.1, core.runRule (p.2 doc spec sv))),
          (core.RULES.map (fun p => (p.1, core.runRule (p.2 doc spec sv)))).all
            (fun p => p.2)⟩, ?_, ?_, ?_⟩
  · rw [core.validate_document, if_neg hnone]
  · rfl
  · intro p hp
    simp only [core.RULES, List.mem_cons, List.not_mem_nil, or_false] at hp
    rcases hp with rfl | rfl | rfl | rfl | rfl | rfl | rfl | rfl | rfl | rfl <;> rfl

/-- Witness for C2: at this input `margins` raises `KeyError` (key absent)
and `min_page_count` raises `AttributeError`, yet the report still contains
an outcome for all ten rules. -/
theorem validate_document_isolates_rule_exceptions_witness :
    ∃ r, core.validate_document sampleDoc sampleSpec { layout_service := false } = .ok r ∧
      r.validations.map Prod.fst = core.RULES.map Prod.fst ∧
      ∀ p ∈ core.RULES,
        List.lookup p.1 r.validations =
          some (core.runRule (p.2 sampleDoc sampleSpec { layout_service := false })) :=
  validate_document_isolates_rule_exceptions sampleDoc sampleSpec _ rfl

/-- C5.  With `layout_service` not purchased, the `page_size` rule passes iff
both page dimensions are strictly within 0.6 cm of the spec (strict `<`, so
exactly 0.6 cm off fails while 0.59 cm off passes — see the witness). -/
theorem page_size_rule_strict_tolerance
    (doc : DocProps) (spec : DocumentSpec) (sv : Services) (sz : PageSize)
    (hsv : sv.layout_service = false) (hsz : doc.page_size = some sz) :
    rules.page_size doc spec sv = .ok true ↔
      (|sz.width_cm - spec.page_width_cm| < 6/10 ∧
       |sz.height_cm - spec.page_height_cm| < 6/10) := by
  rw [rules.page_size, hsv, if_neg (by simp), hsz]
  simp [rules.TOL_PAGE_CM]

/-- Witness for C5 at the tolerance boundary: against a 17×24 spec, a
17.59 cm wide document passes and a 17.6 cm wide one fails. -/
theorem page_size_rule_strict_tolerance_witness :
    rules.page_size { page_size := some { width_cm := 1759/100, height_cm := 24 } }
        sampleSpec { layout_service := false } = .ok true ∧
    ¬ rules.page_size { page_size := some { width_cm := 176/10, height_cm := 24 } }
        sampleSpec { layout_service := false } = .ok true := by
  constructor
  · exact (page_size_rule_strict_tolerance _ sampleSpec _ _ rfl rfl).mpr
      (by norm_num [sampleSpec, abs_lt])
  · intro hcontra
    have habs := (page_size_rule_strict_tolerance _ sampleSpec _
      { width_cm := 176/10, height_cm := 24 } rfl rfl).mp hcontra
    rw [show (176/10 - sampleSpec.page_width_cm : ℚ) = 6/10 by norm_num [sampleSpec],
        abs_of_nonneg (by norm_num : (0:ℚ) ≤ 6/10)] at habs
    exact lt_irrefl _ habs.1

/-- C6.  When `layout_service` is purchased, both geometry rules return true
for every document-properties record and spec — short-circuited before any
geometry (or even the presence of the geometry keys) is examined. -/
theorem layout_service_suppresses_geometry_rules
    (doc : DocProps) (spec : DocumentSpec) (sv : Services)
    (h : sv.layout_service = true) :
    rules.page_size doc spec sv = .ok true ∧
    rules.margins doc spec sv = .ok true := by
  rw [rules.page_size, rules.margins, h]
  exact ⟨if_pos rfl, if_pos rfl⟩

/-- Witness for C6 on a document-properties record with NO geometry keys at
all (both dict accesses would raise `KeyError` if evaluated). -/
theorem layout_service_suppresses_geometry_rules_witness :
    rules.page_size {} sampleSpec { layout_service := true } = .ok true ∧
    rules.margins {} sampleSpec { layout_service := true } = .ok true :=
  layout_service_suppresses_geometry_rules {} sampleSpec _ rfl

/-- C7.  The `page_numbers_position` rule passes iff the (possibly absent,
defaulted to empty) position list is non-empty and every entry is one of
`center`/`left`/`right`; an empty or absent list yields false (fail-closed),
and any `"missing"` entry yields false. -/
theorem page_numbers_position_fail_closed
    (doc : DocProps) (spec : DocumentSpec) (sv : Services) :
    (rules.page_numbers_position doc spec sv = .ok true ↔
       (doc.page_num_positions.getD [] ≠ [] ∧
        ∀ p ∈ doc.page_num_positions.getD [],
          p = "center" ∨ p = "left" ∨ p = "right")) ∧
    (doc.page_num_positions.getD [] = [] →
        rules.page_numbers_position doc spec sv = .ok false) ∧
    ("missing" ∈ doc.page_num_positions.getD [] →
        rules.page_numbers_position doc spec sv = .ok false) := by
  rcases hL : doc.page_num_positions.getD [] with _ | ⟨a, as⟩
  · refine ⟨?_, ?_, ?_⟩
    · rw [rules.page_numbers_position, hL]
      simp
    · intro _
      rw [rules.page_numbers_position, hL]
      rfl
    · intro hmiss
      simp at hmiss
  · have hrule : rules.page_numbers_position doc spec sv =
        .ok ((a :: as).all (fun p => p == "center" || p == "left" || p == "right")) := by
      rw [rules.page_numbers_position, hL]
      rfl
    refine ⟨?_, ?_, ?_⟩
    · rw [hrule]
      simp only [Except.ok.injEq, List.all_eq_true, Bool.or_eq_true, beq_iff_eq,
        or_assoc]
      constructor
      · intro hall
        exact ⟨by simp, hall⟩
      · intro hconj
        exact hconj.2
    · intro hcontra
      simp at hcontra
    · intro hmiss
      rw [hrule]
      have hfalse : ((a :: as).all
          (fun p => p == "center" || p == "left" || p == "right")) = false := by
        cases hall : (a :: as).all
            (fun p => p == "center" || p == "left" || p == "right") with
        | false => rfl
        | true =>
            exfalso
            have := List.all_eq_true.mp hall "missing" hmiss
            simp at this
      rw [hfalse]

/-- Witness for C7: a single `"missing"` entry makes the rule false (the
fail-closed and bad-entry branches are discharged at that concrete input). -/
theorem page_numbers_position_fail_closed_witness :
    (rules.page_numbers_position { page_num_positions := some ["missing"] }
        sampleSpec { layout_service := false } = .ok true ↔
       (({ page_num_positions := some ["missing"] } :
            DocProps).page_num_positions.getD [] ≠ [] ∧
        ∀ p ∈ ({ page_num_positions := some ["missing"] } :
            DocProps).page_num_positions.getD [],
          p = "center" ∨ p = "left" ∨ p = "right")) ∧
    (({ page_num_positions := some ["missing"] } :
        DocProps).page_num_positions.getD [] = [] →
      rules.page_numbers_position { page_num_positions := some ["missing"] }
        sampleSpec { layout_service := false } = .ok false) ∧
    ("missing" ∈ ({ page_num_positions := some ["missing"] } :
        DocProps).page_num_positions.getD [] →
      rules.page_numbers_position { page_num_positions := some ["missing"] }
        sampleSpec { layout_service := false } = .ok false) :=
  page_numbers_position_fail_closed { page_num_positions := some ["missing"] }
    sampleSpec { layout_service := false }

/-- Python `str.strip()` whitespace class (ASCII subset). -/
def isWsChar (c : Char) : Bool :=
  c == ' ' || c == '\t' || c == '\n' || c == '\r'

/-- Python `s.strip()`. -/
def pyStrip (s : List Char) : List Char :=
  ((s.dropWhile isWsChar).reverse.dropWhile isWsChar).reverse

/-- Python `s.isdigit()` (ASCII digits; empty string is falsy). -/
def isDigitStr (s : List Char) : Bool :=
  !s.isEmpty && s.all Char.isDigit

/-- Numeric value of a digit string, i.e. Python `int(s)` on an
already-validated digit string. -/
def digitsToNat (s : List Char) : Nat :=
  s.foldl (fun a c => 10 * a + (c.toNat - 48)) 0

/-- Head-anchored list match used to implement substring search. -/
def listStartsWith : List Char → List Char → Bool
  | _, [] => true
  | [], _ :: _ => false
  | h :: hs, n :: ns => h == n && listStartsWith hs ns

/-- Python `needle in hay` on strings (substring containment). -/
def containsSub (hay needle : List Char) : Bool :=
  hay.tails.any (fun t => listStartsWith t needle)

/-- Python `s.lower()` (ASCII case folding). -/
def pyLower (s : String) : List Char :=
  s.toList.map Char.toLower

/-- Python `s.splitlines()` restricted to the `\n` terminator: a trailing
terminator produces no final empty line. -/
def pySplitlines (s : List Char) : List (List Char) :=
  if s.isEmpty then []
  else
    let parts := s.splitOn '\n'
    if s.getLast? == some '\n' then parts.dropLast else parts

/-- A PDF rectangle (`RectangleObject`): lower-left and upper-right corners
in points. -/
structure PdfBox where
  llx : ℚ
  lly : ℚ
  urx : ℚ
  ury : ℚ
deriving DecidableEq, Repr

/-- `box.width` in PyPDF2. -/
def PdfBox.width (b : PdfBox) : ℚ := b.urx - b.llx

/-- `box.height` in PyPDF2. -/
def PdfBox.height (b : PdfBox) : ℚ := b.ury - b.lly

/-- One word returned by pdfplumber's
`extract_words(keep_blank_chars=False, use_text_flow=True)`; `bottom` is
the distance from the page top to the word's bottom edge. -/
structure PdfWord where
  text : String
  x0 : ℚ
  x1 : ℚ
  bottom : ℚ
deriving DecidableEq, Repr

/-- One text span of PyMuPDF's `page.get_text("dict")` output. -/
structure SpanRec where
  font : String
  size : ℚ
  color : Nat
deriving DecidableEq, Repr

/-- One page of the input PDF, carrying what the three libraries report for
it: the PyPDF2 boxes, the pdfplumber geometry/text/words, and the PyMuPDF
(fitz) content views. -/
structure PdfPage where
  /-- PyPDF2 `page.mediabox`. -/
  mediabox : PdfBox
  /-- The `/TrimBox` entry, when the PDF sets one. -/
  trimbox : Option PdfBox := none
  /-- The `/CropBox` entry, when the PDF sets one. -/
  cropbox : Option PdfBox := none
  /-- pdfplumber `page.width` in points. -/
  width : ℚ := 0
  /-- pdfplumber `page.height` in points. -/
  height : ℚ := 0
  /-- pdfplumber `page.extract_text() or ""`. -/
  text : String := ""
  /-- pdfplumber `page.extract_words(...)`. -/
  words : List PdfWord := []
  /-- Number of fitz `page.get_text("blocks")` entries. -/
  blocks : Nat := 0
  /-- Byte sizes of embedded images that `extract_image` returns
      successfully (failed extractions are swallowed by the source). -/
  imageSizes : List Nat := []
  /-- Whether the low-resolution pixmap render of the page contains a pixel
      whose R,G,B channels are not all equal. -/
  pixmapColorPixel : Bool := false
  /-- Text spans of fitz `page.get_text("dict")`. -/
  spans : List SpanRec := []
deriving DecidableEq, Repr

/-- A PDF document as the three libraries see it. -/
structure PdfDoc where
  pages : List PdfPage
  /-- fitz `get_toc()` entries `(level, title)` — the PDF outline/bookmarks. -/
  toc : List (Int × String) := []
  /-- fitz `pdf_doc.metadata` (string-valued entries). -/
  metadata : List (String × String) := []
deriving DecidableEq, Repr

/-- `CM_PER_PT = 0.0352778` of `services/extract/pdf.py`. -/
def CM_PER_PT : ℚ := 352778/10000000

/-- `_pick_box`: TrimBox if present, else CropBox, else MediaBox (PyPDF2's
box properties fall back along exactly this chain, so `getattr` never
returns `None` and the loop stops at `trimbox`). -/
def pickBox (p : PdfPage) : PdfBox :=
  p.trimbox.getD (p.cropbox.getD p.mediabox)

/-- One `page_boxes` entry: `{"page": idx+1, "width_cm": w*CM, "height_cm": h*CM}`. -/
def mkPageBox (idx : Nat) (p : PdfPage) : PageBoxRec :=
  { page := idx + 1
    width_cm := (pickBox p).width * CM_PER_PT
    height_cm := (pickBox p).height * CM_PER_PT }

/-- The TOC keyword set of the heading heuristic. -/
def TOC_KEYWORDS : List String :=
  ["indice", "table of contents", "contents", "toc", "sommario"]

/-- Whether the lower-cased page text contains any TOC keyword. -/
def kwHit (text : String) : Bool :=
  TOC_KEYWORDS.any (fun k => containsSub (pyLower text) k.toList)

/-- Whether a word is a page-number candidate for 1-based page index
`target`: `w["text"].strip().isdigit() and int(w["text"]) == idx + 1`. -/
def isPageNumberCandidate (target : Nat) (w : PdfWord) : Bool :=
  isDigitStr (pyStrip w.text.toList) &&
    digitsToNat (pyStrip w.text.toList) == target

/-- Whether a word sits inside the bottom band: the source `continue`s when
`w["bottom"] < h_pt - bottom_th` with `bottom_th = 56` (~2 cm). -/
def inFooterBand (hPt : ℚ) (w : PdfWord) : Bool :=
  !(decide (w.bottom < hPt - 56))

/-- Classification of a candidate's horizontal center: `center` within 15%
of mid-width (checked first), `left` below 25% of the width, `right` above
75%; a center in none of the bands leaves the position `"missing"`. -/
def classifyCx (wPt : ℚ) (w : PdfWord) : String :=
  let cx := (w.x0 + w.x1) / 2
  if |cx - wPt / 2| ≤ wPt * (15/100) then "center"
  else if cx < wPt * (25/100) then "left"
  else if cx > wPt * (75/100) then "right"
  else "missing"

/-- The per-page word scan of the page-number heuristic: skip non-candidates
and candidates above the bottom band (`continue`); at the FIRST candidate in
the band, classify it and stop (the `break` is unconditional). -/
def scanWords (hPt wPt : ℚ) (target : Nat) : List PdfWord → String
  | [] => "missing"
  | w :: ws =>
      if isPageNumberCandidate target w then
        if inFooterBand hPt w then classifyCx wPt w
        else scanWords hPt wPt target ws
      else scanWords hPt wPt target ws

/-- Accumulator of the page loop of `extract_pdf_detailed_analysis`. -/
structure DaAcc where
  paragraphs : Nat := 0
  imageCount : Nat := 0
  totalImageSize : Nat := 0
  colorPages : List Nat := []
  hasColorText : Bool := false
deriving DecidableEq, Repr

/-- One iteration of the fitz page loop.  Paragraphs and images accumulate;
a page is colored when it has an extracted image or (checked only
otherwise, with the same net result) a non-grey pixmap pixel.  The span
loop then dereferences `FontInfo.size_counts` on its very first span — a
field `models.FontInfo` does not declare — so any page with a text span
raises `AttributeError` before the colored-text check is reached. -/
def daPage (idx : Nat) (p : PdfPage) (acc : DaAcc) : Except PyErr DaAcc :=
  let pageIsColor := !p.imageSizes.isEmpty || p.pixmapColorPixel
  if !p.spans.isEmpty then .error .attributeError
  else
    .ok { paragraphs := acc.paragraphs + p.blocks
          imageCount := acc.imageCount + p.imageSizes.length
          totalImageSize := acc.totalImageSize + p.imageSizes.sum
          colorPages := if pageIsColor then acc.colorPages ++ [idx] else acc.colorPages
          hasColorText := acc.hasColorText }

/-- The fitz page loop over the enumerated pages. -/
def daPages : List (Nat × PdfPage) → DaAcc → Except PyErr DaAcc
  | [], acc => .ok acc
  | ip :: rest, acc => do daPages rest (← daPage ip.1 ip.2 acc)

/-- Round half to even (Python's `round`). -/
def roundHalfEven (x : ℚ) : ℤ :=
  let f := ⌊x⌋
  if x - f < 1/2 then f
  else if x - f > 1/2 then f + 1
  else if f % 2 = 0 then f else f + 1

/-- Python `round(q, 2)`. -/
def pyRound2 (q : ℚ) : ℚ :=
  (roundHalfEven (q * 100) : ℚ) / 100

/-- `extract_pdf_detailed_analysis` of `services/extract/pdf.py`.  Note the
`fonts` dict of the result is necessarily empty: a document with any text
span never reaches the construction of the result (see `daPage`). -/
def extract_pdf_detailed_analysis (doc : PdfDoc) :
    Except PyErr DetailedDocumentAnalysis := do
  let metadata := doc.metadata.filter
    (fun kv => kv.2 != "" && !(kv.1 == "format" || kv.1 == "encryption"))
  let acc ← daPages doc.pages.enum {}
  let toc_structure := doc.toc.map (fun e => { level := toString e.1, text := e.2 })
  let images :=
    if acc.imageCount ≠ 0 then
      some { count := acc.imageCount
             avg_size_kb :=
               pyRound2 ((acc.totalImageSize : ℚ) / (acc.imageCount : ℚ) / 1024) }
    else none
  .ok { fonts := []
        images := images
        line_spacing := [("Default", 6/5)]
        paragraph_count := acc.paragraphs
        toc_structure := toc_structure
        metadata := metadata
        has_color_pages := !acc.colorPages.isEmpty
        has_color_text := acc.hasColorText
        colored_elements_count := acc.colorPages.length }

/-- `extract_pdf_properties` of `services/extract/pdf.py`.  An empty PDF is
rejected with `HTTPException(400)`; page geometry uses the selected box per
page (`_pick_box`) converted to centimeters; the first page is the size
reference and later pages deviating by more than 0.1 cm in either dimension
are recorded as inconsistent; the page-number band and width thresholds use
the FIRST page's pdfplumber dimensions for every page. -/
def extract_pdf_properties (doc : PdfDoc) : Except PyErr DocProps :=
  match doc.pages with
  | [] => .error (.httpException 400)
  | p0 :: rest =>
      let pages := p0 :: rest
      let pageBoxes := pages.enum.map (fun ip => mkPageBox ip.1 ip.2)
      let ref := mkPageBox 0 p0
      let inconsistent := (pageBoxes.drop 1).filter
        (fun pb => decide (|pb.width_cm - ref.width_cm| > 1/10) ||
                   decide (|pb.height_cm - ref.height_cm| > 1/10))
      let trim := pickBox p0
      let media := p0.mediabox
      let marginsRec : MarginsRec :=
        { top_cm := (media.ury - trim.ury) * CM_PER_PT
          bottom_cm := (trim.lly - media.lly) * CM_PER_PT
          left_cm := (trim.llx - media.llx) * CM_PER_PT
          right_cm := (media.urx - trim.urx) * CM_PER_PT }
      let headings := pages.filterMap
        (fun p => if kwHit p.text then some "TOC detected" else none)
      let headersList := pages.enum.filterMap (fun ip =>
        if ip.1 < 3 && !(pyLower ip.2.text).isEmpty then
          some (String.mk (pyStrip ((pySplitlines (pyLower ip.2.text)).headD [])))
        else none)
      let footnotesList := pages.enum.filterMap (fun ip =>
        if ip.1 < 3 && !(pyLower ip.2.text).isEmpty then
          some (String.mk (pyStrip ((pySplitlines (pyLower ip.2.text)).getLastD [])))
        else none)
      let positions := pages.enum.map
        (fun ip => scanWords p0.height p0.width (ip.1 + 1) ip.2.words)
      (extract_pdf_detailed_analysis doc).map (fun da =>
        { page_size := some { width_cm := ref.width_cm, height_cm := ref.height_cm }
          margins := some marginsRec
          has_toc := some (!headings.isEmpty)
          headings := some headings
          headers := some headersList
          footnotes := some footnotesList
          detailed_analysis := some da
          page_count := some (pages.length : Int)
          page_num_positions := some positions
          inconsistent_pages := some inconsistent
          has_size_inconsistencies := some (!inconsistent.isEmpty) })

/-- The `headings` accumulator is non-empty exactly when some page text
contains a TOC keyword. -/
theorem headings_isEmpty_eq (l : List PdfPage) :
    (l.filterMap
        (fun p => if kwHit p.text then some "TOC detected" else none)).isEmpty
      = !(l.any (fun p => kwHit p.text)) := by
  induction l with
  | nil => rfl
  | cons p ps ih =>
      by_cases hk : kwHit p.text = true
      · simp [List.filterMap_cons, hk]
      · simp [List.filterMap_cons, hk, ih]

/-- Characterization of a successful extraction: the detailed analysis
succeeded and the result record is the one assembled by the extractor. -/
theorem extract_pdf_properties_fields
    (doc : PdfDoc) (p0 : PdfPage) (rest : List PdfPage) (props : DocProps)
    (hpg : doc.pages = p0 :: rest)
    (h : extract_pdf_properties doc = .ok props) :
    ∃ da, extract_pdf_detailed_analysis doc = .ok da ∧
      props =
      { page_size := some { width_cm := (mkPageBox 0 p0).width_cm
                            height_cm := (mkPageBox 0 p0).height_cm }
        margins := some
          { top_cm := (p0.mediabox.ury - (pickBox p0).ury) * CM_PER_PT
            bottom_cm := ((pickBox p0).lly - p0.mediabox.lly) * CM_PER_PT
            left_cm := ((pickBox p0).llx - p0.mediabox.llx) * CM_PER_PT
            right_cm := (p0.mediabox.urx - (pickBox p0).urx) * CM_PER_PT }
        has_toc := some (!((p0 :: rest).filterMap
          (fun p => if kwHit p.text then some "TOC detected" else none)).isEmpty)
        headings := some ((p0 :: rest).filterMap
          (fun p => if kwHit p.text then some "TOC detected" else none))
        headers := some ((p0 :: rest).enum.filterMap (fun ip =>
          if ip.1 < 3 && !(pyLower ip.2.text).isEmpty then
            some (String.mk (pyStrip ((pySplitlines (pyLower ip.2.text)).headD [])))
          else none))
        footnotes := some ((p0 :: rest).enum.filterMap (fun ip =>
          if ip.1 < 3 && !(pyLower ip.2.text).isEmpty then
            some (String.mk (pyStrip ((pySplitlines (pyLower ip.2.text)).getLastD [])))
          else none))
        detailed_analysis := some da
        page_count := some ((p0 :: rest).length : Int)
        page_num_positions := some ((p0 :: rest).enum.map
          (fun ip => scanWords p0.height p0.width (ip.1 + 1) ip.2.words))
        inconsistent_pages := some
          ((((p0 :: rest).enum.map (fun ip => mkPageBox ip.1 ip.2)).drop 1).filter
            (fun pb =>
              decide (|pb.width_cm - (mkPageBox 0 p0).width_cm| > 1/10) ||
              decide (|pb.height_cm - (mkPageBox 0 p0).height_cm| > 1/10)))
        has_size_inconsistencies := some
          (!((((p0 :: rest).enum.map (fun ip => mkPageBox ip.1 ip.2)).drop 1).filter
            (fun pb =>
              decide (|pb.width_cm - (mkPageBox 0 p0).width_cm| > 1/10) ||
              decide (|pb.height_cm - (mkPageBox 0 p0).height_cm| > 1/10))).isEmpty) } := by
  unfold extract_pdf_properties at h
  rw [hpg] at h
  cases hda : extract_pdf_detailed_analysis doc with
  | error e =>
      rw [hda] at h
      exact absurd h (by simp [Except.map])
  | ok da =>
      rw [hda] at h
      simp only [Except.map, Except.ok.injEq] at h
      exact ⟨da, rfl, h.symm⟩

/-- A one-page PDF with no TOC keyword in its text but a non-empty outline. -/
def pdfOutlineDoc : PdfDoc :=
  { pages := [{ mediabox := { llx := 0, lly := 0, urx := 595, ury := 842 }
                width := 595, height := 842, text := "x" }]
    toc := [(1, "Introduzione")] }

/-- C3 counterexample.  `pdfOutlineDoc` has a non-empty outline (which duly
shows up in `detailed_analysis.toc_structure`), yet the extractor reports
`has_toc = false`: the outline does not participate in `has_toc`. -/
theorem has_toc_ignores_outline_cex :
    (extract_pdf_properties pdfOutlineDoc).map (fun p => p.has_toc)
        = .ok (some false) ∧
    pdfOutlineDoc.toc ≠ [] ∧
    (extract_pdf_properties pdfOutlineDoc).map
        (fun p => p.detailed_analysis.map (fun da => da.toc_structure))
      = .ok (some [{ level := "1", text := "Introduzione" }]) := by
  refine ⟨rfl, ?_, rfl⟩
  simp [pdfOutlineDoc]

/-- C3 (amended).  For every PDF the extractor accepts, `has_toc` holds iff
the lower-cased keyword search matches on some page; the outline (fitz
`get_toc`) is recorded only in `detailed_analysis.toc_structure`. -/
theorem has_toc_iff_keyword_match
    (doc : PdfDoc) (p0 : PdfPage) (rest : List PdfPage) (props : DocProps)
    (hpg : doc.pages = p0 :: rest)
    (h : extract_pdf_properties doc = .ok props) :
    props.has_toc = some (doc.pages.any (fun p => kwHit p.text)) ∧
    ∃ da, props.detailed_analysis = some da ∧
      da.toc_structure =
        doc.toc.map (fun e => { level := toString e.1, text := e.2 }) := by
  obtain ⟨da, hda, rfl⟩ := extract_pdf_properties_fields doc p0 rest props hpg h
  constructor
  · show some _ = some _
    rw [headings_isEmpty_eq, Bool.not_not, hpg]
  · refine ⟨da, rfl, ?_⟩
    unfold extract_pdf_detailed_analysis at hda
    cases hacc : daPages doc.pages.enum {} with
    | error e =>
        rw [hacc] at hda
        exact absurd hda (by simp [Bind.bind, Except.bind])
    | ok acc =>
        rw [hacc] at hda
        simp only [Bind.bind, Except.bind, Except.ok.injEq] at hda
        rw [← hda]

/-- A one-page PDF whose only page text is the keyword `Indice`. -/
def pdfKwDoc : PdfDoc :=
  { pages := [{ mediabox := { llx := 0, lly := 0, urx := 595, ury := 842 }
                width := 595, height := 842, text := "Indice" }] }

/-- Witness for the amended C3 at a concrete keyword-bearing PDF. -/
theorem has_toc_iff_keyword_match_witness :
    ∃ props, extract_pdf_properties pdfKwDoc = .ok props ∧
      (props.has_toc = some (pdfKwDoc.pages.any (fun p => kwHit p.text)) ∧
       ∃ da, props.detailed_analysis = some da ∧
         da.toc_structure =
           pdfKwDoc.toc.map (fun e => { level := toString e.1, text := e.2 })) :=
  ⟨_, rfl, has_toc_iff_keyword_match pdfKwDoc _ _ _ rfl rfl⟩

/-- The word scan returns the classification of the FIRST candidate inside
the bottom band (and `"missing"` when there is none): the `break` after the
classification attempt is unconditional, so later words are never reached
once an in-band candidate is found, even when it classifies to no band. -/
theorem scanWords_eq_find (hPt wPt : ℚ) (t : Nat) (ws : List PdfWord) :
    scanWords hPt wPt t ws =
      match ws.find? (fun w => isPageNumberCandidate t w && inFooterBand hPt w) with
      | none => "missing"
      | some w => classifyCx wPt w := by
  induction ws with
  | nil => rfl
  | cons w ws ih =>
      by_cases hc : isPageNumberCandidate t w = true
      · by_cases hb : inFooterBand hPt w = true
        · rw [scanWords, if_pos hc, if_pos hb,
              List.find?_cons_of_pos _ (by simp [hc, hb])]
        · rw [scanWords, if_pos hc, if_neg hb, ih,
              List.find?_cons_of_neg _ (by simp [hb])]
      · rw [scanWords, if_neg hc, ih,
            List.find?_cons_of_neg _ (by simp [hc])]

/-- First word of the scan page: a candidate in the bottom band whose
center (x = 30 on a 100 pt page) falls in none of the three bands. -/
def pdfWordOff : PdfWord :=
  { text := "1", x0 := 29, x1 := 31, bottom := 90 }

/-- Second word of the scan page: a candidate in the bottom band whose
center (x = 50) classifies as `center`. -/
def pdfWordCenter : PdfWord :=
  { text := "1", x0 := 49, x1 := 51, bottom := 90 }

/-- A 100×100 pt page whose word list holds `pdfWordOff` before
`pdfWordCenter`. -/
def pdfScanPage : PdfPage :=
  { mediabox := { llx := 0, lly := 0, urx := 100, ury := 100 }
    width := 100, height := 100
    words := [pdfWordOff, pdfWordCenter] }

/-- The one-page document exercising the page-number scan. -/
def pdfScanDoc : PdfDoc := { pages := [pdfScanPage] }

/-- C4 counterexample.  The page holds a qualifying in-band candidate that
classifies `center` (`pdfWordCenter`), yet the recorded position is
`missing`: the scan stopped at the earlier in-band candidate whose center
fell in no band, instead of continuing with further words as claimed. -/
theorem page_number_scan_stops_cex :
    ∃ props, extract_pdf_properties pdfScanDoc = .ok props ∧
      props.page_num_positions = some ["missing"] ∧
      (isPageNumberCandidate 1 pdfWordCenter &&
         inFooterBand pdfScanPage.height pdfWordCenter) = true ∧
      classifyCx pdfScanPage.width pdfWordCenter = "center" := by
  have hband : ∀ w : PdfWord, w.bottom = 90 →
      inFooterBand pdfScanPage.height w = true := by
    intro w hw
    rw [inFooterBand, hw]
    norm_num [pdfScanPage]
  have hclassOff : classifyCx pdfScanPage.width pdfWordOff = "missing" := by
    simp only [classifyCx, pdfScanPage, pdfWordOff]
    norm_num
  refine ⟨_, rfl, ?_, ?_, ?_⟩
  · show some [scanWords pdfScanPage.height pdfScanPage.width (0 + 1)
        pdfScanPage.words] = some ["missing"]
    rw [show pdfScanPage.words = [pdfWordOff, pdfWordCenter] from rfl,
        scanWords, if_pos (show isPageNumberCandidate (0 + 1) pdfWordOff = true from rfl),
        if_pos (hband pdfWordOff rfl), hclassOff]
  · rw [show isPageNumberCandidate 1 pdfWordCenter = true from rfl,
        hband pdfWordCenter rfl]
    rfl
  · simp only [classifyCx, pdfScanPage, pdfWordCenter]
    norm_num

/-- C4 (amended).  For every PDF the extractor accepts: one entry per page
in page order; a word is a candidate iff it is purely numeric, equals the
1-based page index, and lies in the ~2 cm bottom band (measured with the
FIRST page's pdfplumber height); the entry is the band classification
(center within 15% of mid-width, left below 25%, right above 75%, of the
first page's width) of the FIRST in-band candidate of the page — `missing`
when there is no such candidate, and also when the first in-band
candidate's center falls in none of the bands (the scan does not continue
past it). -/
theorem page_num_positions_first_band_candidate
    (doc : PdfDoc) (p0 : PdfPage) (rest : List PdfPage) (props : DocProps)
    (hpg : doc.pages = p0 :: rest)
    (h : extract_pdf_properties doc = .ok props) :
    props.page_num_positions = some (doc.pages.enum.map (fun ip =>
      match ip.2.words.find?
          (fun w => isPageNumberCandidate (ip.1 + 1) w && inFooterBand p0.height w) with
      | none => "missing"
      | some w => classifyCx p0.width w)) := by
  obtain ⟨da, hda, rfl⟩ := extract_pdf_properties_fields doc p0 rest props hpg h
  show some _ = some _
  rw [hpg]
  have hfun : (fun ip : Nat × PdfPage =>
      scanWords p0.height p0.width (ip.1 + 1) ip.2.words) = (fun ip =>
      match ip.2.words.find?
          (fun w => isPageNumberCandidate (ip.1 + 1) w && inFooterBand p0.height w) with
      | none => "missing"
      | some w => classifyCx p0.width w) :=
    funext (fun ip => scanWords_eq_find p0.height p0.width (ip.1 + 1) ip.2.words)
  rw [hfun]

/-- Witness for the amended C4 at the concrete scan document. -/
theorem page_num_positions_first_band_candidate_witness :
    ∃ props, extract_pdf_properties pdfScanDoc = .ok props ∧
      props.page_num_positions = some (pdfScanDoc.pages.enum.map (fun ip =>
        match ip.2.words.find?
            (fun w => isPageNumberCandidate (ip.1 + 1) w &&
                      inFooterBand pdfScanPage.height w) with
        | none => "missing"
        | some w => classifyCx pdfScanPage.width w)) :=
  ⟨_, rfl, page_num_positions_first_band_candidate pdfScanDoc pdfScanPage [] _ rfl rfl⟩

/-- Index-to-membership for `enumFrom`. -/
theorem mem_enumFrom_get {α : Type} (l : List α) :
    ∀ (n j : Nat) (hj : j < l.length), (n + j, l.get ⟨j, hj⟩) ∈ l.enumFrom n := by
  induction l with
  | nil =>
      intro n j hj
      exact absurd hj (by simp)
  | cons a as ih =>
      intro n j hj
      cases j with
      | zero => simp [List.enumFrom]
      | succ k =>
          have hk : k < as.length := by simpa using Nat.lt_of_succ_lt_succ hj
          have hmem := ih (n + 1) k hk
          have heq : (n + 1) + k = n + (k + 1) := by omega
          rw [heq] at hmem
          rw [List.enumFrom]
          exact List.mem_cons_of_mem _ hmem

/-- C8.  Any later page whose selected-box dimensions (converted to cm by
0.0352778) deviate from the first page's by strictly more than 0.1 cm in
either direction is recorded in `inconsistent_pages`; the extractor then
sets `has_size_inconsistencies` and the `format_consistency` rule fails. -/
theorem size_inconsistency_detection
    (doc : PdfDoc) (p0 : PdfPage) (rest : List PdfPage) (props : DocProps)
    (hpg : doc.pages = p0 :: rest)
    (h : extract_pdf_properties doc = .ok props)
    (j : Nat) (hj : j < rest.length)
    (hdev : |(pickBox (rest.get ⟨j, hj⟩)).width * CM_PER_PT -
              (pickBox p0).width * CM_PER_PT| > 1/10 ∨
            |(pickBox (rest.get ⟨j, hj⟩)).height * CM_PER_PT -
              (pickBox p0).height * CM_PER_PT| > 1/10) :
    mkPageBox (j + 1) (rest.get ⟨j, hj⟩) ∈ props.inconsistent_pages.getD [] ∧
    props.has_size_inconsistencies = some true ∧
    ∀ spec sv, rules.format_consistency props spec sv = .ok false := by
  obtain ⟨da, hda, rfl⟩ := extract_pdf_properties_fields doc p0 rest props hpg h
  have hdropEq : (((p0 :: rest).enum.map (fun ip => mkPageBox ip.1 ip.2)).drop 1)
      = (rest.enumFrom 1).map (fun ip => mkPageBox ip.1 ip.2) := rfl
  have hmem0 : ((1 + j : Nat), rest.get ⟨j, hj⟩) ∈ rest.enumFrom 1 :=
    mem_enumFrom_get rest 1 j hj
  have hmem1 : mkPageBox (j + 1) (rest.get ⟨j, hj⟩) ∈
      (rest.enumFrom 1).map (fun ip => mkPageBox ip.1 ip.2) := by
    refine List.mem_map.mpr ⟨(1 + j, rest.get ⟨j, hj⟩), hmem0, ?_⟩
    rw [Nat.add_comm 1 j]
  have hpred : (decide (|(mkPageBox (j + 1) (rest.get ⟨j, hj⟩)).width_cm -
        (mkPageBox 0 p0).width_cm| > 1/10) ||
      decide (|(mkPageBox (j + 1) (rest.get ⟨j, hj⟩)).height_cm -
        (mkPageBox 0 p0).height_cm| > 1/10)) = true := by
    rcases hdev with hd | hd
    · simp only [mkPageBox, Bool.or_eq_true, decide_eq_true_eq]
      exact Or.inl (by simpa using hd)
    · simp only [mkPageBox, Bool.or_eq_true, decide_eq_true_eq]
      exact Or.inr (by simpa using hd)
  have hmem : mkPageBox (j + 1) (rest.get ⟨j, hj⟩) ∈
      ((((p0 :: rest).enum.map (fun ip => mkPageBox ip.1 ip.2)).drop 1).filter
        (fun pb => decide (|pb.width_cm - (mkPageBox 0 p0).width_cm| > 1/10) ||
                   decide (|pb.height_cm - (mkPageBox 0 p0).height_cm| > 1/10))) := by
    rw [hdropEq]
    exact List.mem_filter.mpr ⟨hmem1, hpred⟩
  have hne : ((((p0 :: rest).enum.map (fun ip => mkPageBox ip.1 ip.2)).drop 1).filter
      (fun pb => decide (|pb.width_cm - (mkPageBox 0 p0).width_cm| > 1/10) ||
                 decide (|pb.height_cm - (mkPageBox 0 p0).height_cm| > 1/10))).isEmpty
      = false := by
    cases hLc : ((((p0 :: rest).enum.map (fun ip => mkPageBox ip.1 ip.2)).drop 1).filter
        (fun pb => decide (|pb.width_cm - (mkPageBox 0 p0).width_cm| > 1/10) ||
                   decide (|pb.height_cm - (mkPageBox 0 p0).height_cm| > 1/10))) with
    | nil =>
        rw [hLc] at hmem
        exact absurd hmem (by simp)
    | cons b l => rfl
  refine ⟨by simpa using hmem, ?_, ?_⟩
  · show some _ = some true
    rw [hne]
    rfl
  · intro spec sv
    rw [rules.format_consistency]
    show Except.ok (!(Option.getD (some _) false)) = Except.ok false
    rw [hne]
    rfl

/-- A4 width in points (21 cm under the extractor's conversion factor). -/
def a4w : ℚ := 21 / CM_PER_PT

/-- A4 height in points (29.7 cm). -/
def a4h : ℚ := (297/10) / CM_PER_PT

/-- A5 height in points (14.8 cm). -/
def a5h : ℚ := (148/10) / CM_PER_PT

/-- A 21×29.7 cm page (MediaBox only). -/
def pageA4 : PdfPage := { mediabox := { llx := 0, lly := 0, urx := a4w, ury := a4h } }

/-- A 21×14.8 cm page (MediaBox only). -/
def pageA5 : PdfPage := { mediabox := { llx := 0, lly := 0, urx := a4w, ury := a5h } }

/-- The spec's scenario document: pages 1–2 at 21×29.7 cm, page 3 at
21×14.8 cm. -/
def pdfSizesDoc : PdfDoc := { pages := [pageA4, pageA4, pageA5] }

/-- Witness for C8 at the spec's three-page scenario; `inconsistent_pages`
holds exactly the page-3 record. -/
theorem size_inconsistency_detection_witness :
    ∃ props, extract_pdf_properties pdfSizesDoc = .ok props ∧
      (mkPageBox 2 pageA5 ∈ props.inconsistent_pages.getD [] ∧
       props.has_size_inconsistencies = some true ∧
       ∀ spec sv, rules.format_consistency props spec sv = .ok false) ∧
      props.inconsistent_pages =
        some [{ page := 3, width_cm := 21, height_cm := 148/10 }] := by
  have habs : (1:ℚ)/10 < |(149:ℚ)/10| := by
    rw [abs_of_nonneg (by norm_num : (0:ℚ) ≤ (149:ℚ)/10)]
    norm_num
  have hdev : |(pickBox (([pageA4, pageA5] : List PdfPage).get
        ⟨1, by norm_num⟩)).height * CM_PER_PT -
      (pickBox pageA4).height * CM_PER_PT| > 1/10 := by
    norm_num [pickBox, pageA4, pageA5, PdfBox.height, a4h, a5h, CM_PER_PT]
    exact habs
  refine ⟨_, rfl, ?_, ?_⟩
  · exact size_inconsistency_detection pdfSizesDoc pageA4 [pageA4, pageA5] _ rfl rfl
      1 (by norm_num) (Or.inr hdev)
  · show some (List.filter _ [mkPageBox 1 pageA4, mkPageBox 2 pageA5]) = some _
    norm_num [mkPageBox, pickBox, pageA4, pageA5, PdfBox.width, PdfBox.height,
      a4w, a4h, a5h, CM_PER_PT, List.filter, habs]

/-- Unit suffix of an ODF dimension attribute value. -/
inductive OdtUnit where
  | cm : OdtUnit
  | mm : OdtUnit
  | inch : OdtUnit
  | plain : OdtUnit
deriving DecidableEq, Repr

/-- A parsed ODF dimension attribute such as `"21cm"`, `"210mm"`, `"8.5in"`
or a bare number: numeric value plus unit suffix. -/
structure OdtDim where
  value : ℚ
  unit : OdtUnit
deriving DecidableEq, Repr

/-- `_parse_dimension` of `services/extract/odt.py`: absent (or empty)
attribute gives 0; `cm` passes through, `mm` divides by 10, `in` multiplies
by 2.54, a bare number passes through. -/
def parse_dimension : Option OdtDim → ℚ
  | none => 0
  | some d =>
      match d.unit with
      | .cm => d.value
      | .mm => d.value / 10
      | .inch => d.value * (254/100)
      | .plain => d.value

/-- An ODF heading element: text of its first child (when present) and the
`text:outline-level` attribute. -/
structure OdtHeadingElem where
  firstChild : Option String := none
  outlineLevel : Option String := none
deriving DecidableEq, Repr

/-- ODF `PageLayoutProperties` dimension attributes. -/
structure OdtPageLayout where
  pageWidth : Option OdtDim := none
  pageHeight : Option OdtDim := none
  marginTop : Option OdtDim := none
  marginBottom : Option OdtDim := none
  marginLeft : Option OdtDim := none
  marginRight : Option OdtDim := none
deriving DecidableEq, Repr

/-- An ODT document as the `odfpy` queries of the extractor see it. -/
structure OdtDoc where
  pageLayouts : List OdtPageLayout := []
  headings : List OdtHeadingElem := []
  /-- Number of `draw:image` elements. -/
  imageCount : Nat := 0
  /-- `fo:color` attributes of the `TextProperties` elements. -/
  textPropColors : List (Option String) := []
  /-- `draw:fill-color` attributes of the `GraphicProperties` elements. -/
  graphicFillColors : List (Option String) := []
deriving DecidableEq, Repr

/-- Python truthiness test `attr and attr != "#000000"` on an optional
color attribute. -/
def isNonBlackColor : Option String → Bool
  | none => false
  | some s => !(s == "") && !(s == "#000000")

/-- The `str(h.getAttribute("text:outline-level") or "1")` expression. -/
def odtHeadingLevel (h : OdtHeadingElem) : String :=
  match h.outlineLevel with
  | none => "1"
  | some s => if s == "" then "1" else s

/-- `extract_odt_properties` of `services/extract/odt.py`.  Without page
layouts a minimal fallback dict is returned (no `headers`/`footnotes` keys
at all); otherwise geometry comes from the first layout, headings from the
heading elements, color flags from images and explicit non-black colors —
and `headers`/`footnotes` are hard-coded empty lists. -/
def extract_odt_properties (doc : OdtDoc) : DocProps :=
  match doc.pageLayouts with
  | [] =>
      { page_size := some { width_cm := 0, height_cm := 0 }
        margins := some { top_cm := 0, bottom_cm := 0, left_cm := 0, right_cm := 0 }
        has_toc := some false
        headings := some []
        detailed_analysis := some {} }
  | pl :: _ =>
      let headingsTexts := doc.headings.filterMap (fun h => h.firstChild)
      let textMatches := doc.textPropColors.filter isNonBlackColor
      let graphicMatches := doc.graphicFillColors.filter isNonBlackColor
      { page_size := some { width_cm := parse_dimension pl.pageWidth
                            height_cm := parse_dimension pl.pageHeight }
        margins := some { top_cm := parse_dimension pl.marginTop
                          bottom_cm := parse_dimension pl.marginBottom
                          left_cm := parse_dimension pl.marginLeft
                          right_cm := parse_dimension pl.marginRight }
        has_toc := some (!headingsTexts.isEmpty)
        headings := some headingsTexts
        headers := some []
        footnotes := some []
        detailed_analysis := some
          { fonts := [("Default", { sizes := [11], count := 1 })]
            images := if doc.imageCount ≠ 0 then
                some { count := doc.imageCount, avg_size_kb := 10 }
              else none
            line_spacing := [("Default", 6/5)]
            paragraph_count := headingsTexts.length
            toc_structure := doc.headings.filterMap (fun h =>
              h.firstChild.map (fun t => { level := odtHeadingLevel h, text := t }))
            metadata := []
            has_color_pages := decide (doc.imageCount > 0) || !graphicMatches.isEmpty
            has_color_text := !textMatches.isEmpty
            colored_elements_count :=
              doc.imageCount + textMatches.length + graphicMatches.length } }

/-- C10.  The ODT extractor returns empty `headers`/`footnotes` (absent in
the no-page-layout fallback), so the `has_header` rule is false for every
ODT submission whenever the spec requires a header, and `has_footnotes`
likewise. -/
theorem odt_headers_footnotes_always_empty
    (odt : OdtDoc) (spec : DocumentSpec) (sv : Services) :
    ((extract_odt_properties odt).headers.getD [] = [] ∧
     (extract_odt_properties odt).footnotes.getD [] = []) ∧
    (spec.requires_header = true →
      rules.has_header (extract_odt_properties odt) spec sv = .ok false) ∧
    (spec.requires_footnotes = true →
      rules.has_footnotes (extract_odt_properties odt) spec sv = .ok false) := by
  have hh : (extract_odt_properties odt).headers.getD [] = [] := by
    cases hpl : odt.pageLayouts with
    | nil =>
        unfold extract_odt_properties
        rw [hpl]
        rfl
    | cons pl pls =>
        unfold extract_odt_properties
        rw [hpl]
        rfl
  have hf : (extract_odt_properties odt).footnotes.getD [] = [] := by
    cases hpl : odt.pageLayouts with
    | nil =>
        unfold extract_odt_properties
        rw [hpl]
        rfl
    | cons pl pls =>
        unfold extract_odt_properties
        rw [hpl]
        rfl
  refine ⟨⟨hh, hf⟩, ?_, ?_⟩
  · intro hreq
    rw [rules.has_header, hreq, hh]
    rfl
  · intro hreq
    rw [rules.has_footnotes, hreq, hf]
    rfl

/-- An ODT document with one (attribute-free) page layout. -/
def odtSampleDoc : OdtDoc := { pageLayouts := [{}] }

/-- A spec requiring both a header and footnotes. -/
def specRequiresBoth : DocumentSpec :=
  { name := "Spec test"
    page_width_cm := 17
    page_height_cm := 24
    top_margin_cm := 0
    bottom_margin_cm := 0
    left_margin_cm := 0
    right_margin_cm := 0
    requires_header := true
    requires_footnotes := true }

/-- Witness for C10 at a concrete ODT document and header/footnote-requiring
spec. -/
theorem odt_headers_footnotes_always_empty_witness :
    rules.has_header (extract_odt_properties odtSampleDoc) specRequiresBoth
        { layout_service := false } = .ok false ∧
    rules.has_footnotes (extract_odt_properties odtSampleDoc) specRequiresBoth
        { layout_service := false } = .ok false :=
  ⟨(odt_headers_footnotes_always_empty odtSampleDoc specRequiresBoth
      { layout_service := false }).2.1 rfl,
   (odt_headers_footnotes_always_empty odtSampleDoc specRequiresBoth
      { layout_service := false }).2.2 rfl⟩

/-- A DocumentSpec with a negative page width (pydantic accepts it: the
dimension fields are plain unconstrained floats). -/
def negativeSpec : DocumentSpec :=
  { name := "negative"
    page_width_cm := -1
    page_height_cm := 24
    top_margin_cm := 0
    bottom_margin_cm := 0
    left_margin_cm := 0
    right_margin_cm := 0 }

/-- C9 counterexample.  A constructible `DocumentSpec` with a negative
dimension exists: `models.DocumentSpec` attaches no non-negativity
validation to any dimension field. -/
theorem documentspec_negative_dimension_cex :
    ∃ s : DocumentSpec, s.page_width_cm < 0 :=
  ⟨negativeSpec, by norm_num [negativeSpec]⟩

/-- C9 (amended).  The dimension fields of `DocumentSpec` are unconstrained:
every combination of rational values — of either sign — is realized by a
constructible `DocumentSpec`. -/
theorem documentspec_dimensions_unconstrained (w h t b l r : ℚ) :
    ∃ s : DocumentSpec, s.page_width_cm = w ∧ s.page_height_cm = h ∧
      s.top_margin_cm = t ∧ s.bottom_margin_cm = b ∧
      s.left_margin_cm = l ∧ s.right_margin_cm = r :=
  ⟨{ name := "spec", page_width_cm := w, page_height_cm := h,
     top_margin_cm := t, bottom_margin_cm := b,
     left_margin_cm := l, right_margin_cm := r },
   rfl, rfl, rfl, rfl, rfl, rfl⟩
